import Mathlib

/-!
Verification of the short-link core of `Url_shortener.py`.

The embedding models the three SQLAlchemy tables (`User` is only an opaque
integer id here), the route handlers `create_a_new_shortened_link` (lines
418-449), `redirect_to_the_original_url` (lines 451-466),
`show_link_click_stats` (lines 468-484) and `user_dashboard_view`
(lines 403-416), and the click count shown by the dashboard template
(line 268, `all_recorded_clicks|length`).

SQLAlchemy semantics that matter here: the declarative-base constructor of a
model class rejects any keyword argument that is not an attribute of the
class with a `TypeError`, and `Query.filter_by` rejects a keyword that is not
a mapped attribute.  The attribute sets of the model classes and the keyword
lists used at each call site are therefore part of the embedding, so that
these checks can be evaluated.
-/

namespace UrlShortener

/-- A row of the `short_url` table: the columns declared on the `ShortURL`
model at lines 39-44 (`creation_timestamp` is an external-clock default and
carries no claim, so it is omitted from the row). -/
structure ShortURLRow where
  id : Nat
  original_long_url_str : String
  the_short_code_str : String
  creator_user_id : Nat
deriving DecidableEq

/-- A row of the `click` table: the columns declared on the `Click` model at
lines 54-58 (`click_moment` is an external-clock default and is omitted). -/
structure ClickRow where
  id : Nat
  clicked_url_id : Nat
  client_ip_address : Option String
deriving DecidableEq

/-- The persistent state: the two tables the routes read and write. -/
structure DB where
  links : List ShortURLRow
  clicks : List ClickRow
deriving DecidableEq

/-- The store before any operation has run. -/
def emptyDB : DB := { links := [], clicks := [] }

/-- Attribute names of the `ShortURL` model class: the declared columns and
relationship (lines 39-46) plus the `owner_user` backref installed by the
`User.their_shortened_urls` relationship (line 31). -/
def shortURLAttrNames : List String :=
  ["id", "original_long_url_str", "the_short_code_str", "creation_timestamp",
   "creator_user_id", "all_recorded_clicks", "owner_user"]

/-- Keyword arguments passed to the `ShortURL` constructor at line 444. -/
def shortURLCtorKwargs : List String :=
  ["original_full_url_str", "the_short_code_str", "creator_user_id"]

/-- Attribute names of the `Click` model class: the declared columns
(lines 54-58) plus the `linked_short_url` backref installed by
`ShortURL.all_recorded_clicks` (line 46). -/
def clickAttrNames : List String :=
  ["id", "click_moment", "client_ip_address", "clicked_url_id",
   "linked_short_url"]

/-- Keyword arguments passed to the `Click` constructor at line 459. -/
def clickCtorKwargs : List String :=
  ["short_link_id", "visitor_ip_address"]

/-- The first keyword of a call that is not an attribute of the model class,
if any.  The declarative constructor (and `filter_by`) raises on exactly such
a keyword. -/
def firstInvalidKwarg (attrs kwargs : List String) : Option String :=
  kwargs.find? (fun k => !(attrs.contains k))

/-- `ShortURL.query.filter_by(the_short_code_str=code).first()`
(lines 440 and 454): the first stored link carrying the code. -/
def lookupLink (db : DB) (code : String) : Option ShortURLRow :=
  db.links.find? (fun l => l.the_short_code_str == code)

/-- Python `str.strip()` (line 424): drop whitespace from both ends. -/
def pyStrip (s : String) : String :=
  String.mk (((s.data.dropWhile Char.isWhitespace).reverse.dropWhile
      Char.isWhitespace).reverse)

/-- Whether the character list `pre` is an initial segment of `cs`. -/
def charsStartWith : List Char → List Char → Bool
  | [], _ => true
  | _ :: _, [] => false
  | p :: ps, c :: cs => p == c && charsStartWith ps cs

/-- Python `s.startswith(pre)` (line 430). -/
def pyStartsWith (s pre : String) : Bool :=
  charsStartWith pre.data s.data

/-- The collision loop of lines 437-441: successive draws of
`shortuuid.uuid()[:8]` are supplied as a list, and the loop keeps drawing
while the current draw is already in the store.  Returns the first unused
draw together with how many draws were consumed; `none` means every supplied
draw collided, in which case the source loop would simply keep drawing - the
loop has no attempt ceiling of its own. -/
def freshCodeLoop (db : DB) : List String → Option (String × Nat)
  | [] => none
  | c :: rest =>
    match lookupLink db c with
    | none => some (c, 1)
    | some _ =>
      match freshCodeLoop db rest with
      | none => none
      | some (c2, n) => some (c2, n + 1)

/-- The scheme check of line 430. -/
def urlIsValidForm (s : String) : Bool :=
  pyStartsWith s "http://" || pyStartsWith s "https://"

/-- Autoincrement id for a new `short_url` row. -/
def nextLinkId (db : DB) : Nat :=
  db.links.foldr (fun l m => max l.id m) 0 + 1

/-- Autoincrement id for a new `click` row. -/
def nextClickId (db : DB) : Nat :=
  db.clicks.foldr (fun k m => max k.id m) 0 + 1

/-- Outcomes of the `/shorten` handler. -/
inductive ShortenOutcome where
  /-- Lines 420-422: not signed in. -/
  | loginRedirect
  /-- Lines 425-427: the stripped URL field is empty. -/
  | emptyUrlFlash
  /-- Lines 430-432: the stripped input does not start with the scheme text. -/
  | schemeFlash
  /-- The model constructor at line 444 received an invalid keyword and
  raised `TypeError` before anything was added to the session. -/
  | typeError (kw : String)
  /-- The supplied list of draws was exhausted with every draw colliding;
  the source loop would continue drawing. -/
  | stillDrawing
  /-- Lines 444-449 completed: row committed, success flash, redirect. -/
  | success (code : String)
deriving DecidableEq

/-- The `/shorten` route handler `create_a_new_shortened_link`
(lines 418-449).  The signed-in user of the session is passed explicitly as
`owner`; `candidates` supplies the successive values of
`shortuuid.uuid()[:8]` drawn at lines 437 and 441. -/
def create_a_new_shortened_link (db : DB) (owner : Option Nat)
    (original_url_form : String) (candidates : List String) :
    ShortenOutcome × DB :=
  match owner with
  | none => (.loginRedirect, db)
  | some uid =>
    let the_original_long_url_input := pyStrip original_url_form
    if the_original_long_url_input = "" then (.emptyUrlFlash, db)
    else if !(urlIsValidForm the_original_long_url_input) then
      (.schemeFlash, db)
    else
      match freshCodeLoop db candidates with
      | none => (.stillDrawing, db)
      | some (code, _) =>
        match firstInvalidKwarg shortURLAttrNames shortURLCtorKwargs with
        | some kw => (.typeError kw, db)
        | none =>
          -- Unreachable with the keyword lists of line 444; were the
          -- keywords valid they would bind the url, code and owner columns.
          (.success code,
           { db with links := db.links ++
               [{ id := nextLinkId db,
                  original_long_url_str := the_original_long_url_input,
                  the_short_code_str := code,
                  creator_user_id := uid }] })

/-- Outcomes of the redirect route `/<short_code>`. -/
inductive ResolveOutcome where
  /-- Lines 464-466: no link carries the code; flash and redirect back. -/
  | notFoundFlash
  /-- The `Click` constructor at line 459 received an invalid keyword and
  raised `TypeError` before anything was added to the session. -/
  | typeError (kw : String)
  /-- Line 463 read an attribute the `ShortURL` class does not have, after
  the click was already committed at line 461. -/
  | attributeError (attr : String)
  /-- Line 463: redirect to the stored destination. -/
  | redirected (dest : String)
deriving DecidableEq

/-- The redirect route handler `redirect_to_the_original_url`
(lines 451-466).  `remote_addr` is `request.remote_addr` of line 458. -/
def redirect_to_the_original_url (db : DB) (short_code : String)
    (remote_addr : String) : ResolveOutcome × DB :=
  match lookupLink db short_code with
  | none => (.notFoundFlash, db)
  | some l =>
    match firstInvalidKwarg clickAttrNames clickCtorKwargs with
    | some kw => (.typeError kw, db)
    | none =>
      -- Unreachable with the keyword lists of line 459; were the keywords
      -- valid they would bind the link id and visitor address columns, the
      -- click would be committed (line 461), and then line 463 would read
      -- `original_full_url_str` from the link object.
      let db2 : DB :=
        { db with clicks := db.clicks ++
            [{ id := nextClickId db, clicked_url_id := l.id,
               client_ip_address := some remote_addr }] }
      if shortURLAttrNames.contains "original_full_url_str" then
        (.redirected l.original_long_url_str, db2)
      else
        (.attributeError "original_full_url_str", db2)

/-- Outcomes of the analytics route `/analytics/<short_code>`. -/
inductive AnalyticsOutcome where
  /-- Lines 470-472: not signed in. -/
  | loginRedirect
  /-- Lines 478-480: one shared branch for both a nonexistent code and a
  code owned by a different user, with one flash text for both. -/
  | notFoundOrForbiddenFlash
  /-- Line 483: `filter_by` received a keyword that is not a mapped
  attribute of `Click` and raised. -/
  | invalidRequestError (kw : String)
  /-- Line 484: render the stats page with the click rows of the link,
  most recently inserted first. -/
  | statsPage (clicks : List ClickRow)
deriving DecidableEq

/-- The analytics route handler `show_link_click_stats` (lines 468-484).
The handler never writes to the store, so only the outcome is returned. -/
def show_link_click_stats (db : DB) (user : Option Nat)
    (short_code : String) : AnalyticsOutcome :=
  match user with
  | none => .loginRedirect
  | some uid =>
    match db.links.find?
        (fun l => l.the_short_code_str == short_code
                  && l.creator_user_id == uid) with
    | none => .notFoundOrForbiddenFlash
    | some l =>
      match firstInvalidKwarg clickAttrNames ["short_link_id"] with
      | some kw => .invalidRequestError kw
      | none =>
        -- Unreachable with the keyword of line 483; were it valid the query
        -- would return the clicks of the link, newest first.
        .statsPage ((db.clicks.filter (fun k => k.clicked_url_id == l.id)).reverse)

/-- Outcomes of the dashboard route `/dashboard`. -/
inductive DashboardOutcome where
  /-- Lines 405-407: not signed in. -/
  | loginRedirect
  /-- Lines 410-413: session id no longer matches a user. -/
  | sessionErrorRedirect
  /-- The function body ends without a `return` for a signed-in valid user
  (line 416 sits inside the dead tail of the line-410 branch), so the view
  returns `None` and the framework raises. -/
  | noneReturned
deriving DecidableEq

/-- The dashboard route handler `user_dashboard_view` (lines 403-416).
`userFound` tells whether the session id still resolves to a `User` row.
The handler never writes to the link or click tables. -/
def user_dashboard_view (db : DB) (signedIn : Bool) (userFound : Bool) :
    DashboardOutcome × DB :=
  if !signedIn then (.loginRedirect, db)
  else if !userFound then (.sessionErrorRedirect, db)
  else (.noneReturned, db)

/-- The click count the dashboard template shows for a link
(line 268, `url_item.all_recorded_clicks|length`): the number of click rows
whose foreign key is the id of the link carrying the code. -/
def countFor (db : DB) (code : String) : Nat :=
  match lookupLink db code with
  | none => 0
  | some l => (db.clicks.filter (fun k => k.clicked_url_id == l.id)).length

/-- The storage-level insert that lines 444-446 perform once the
constructor returns: `session.add` plus `commit` append the new row. -/
def insertLink (db : DB) (r : ShortURLRow) : DB :=
  { db with links := db.links ++ [r] }

/-- Storage-level semantics of one creation, lines 436-446: draw candidates
until one is absent from the store (the loop of lines 440-441), then persist
a row carrying that code for the given owner and destination.  This is the
insert those lines specify at the column level; at run time the keyword slip
at line 444 aborts it (see the TypeError outcome of
`create_a_new_shortened_link`), and this definition exists so that the
namespace invariant the loop plus the `unique=True` constraint of line 41
maintain can be stated about the rows that reach the table. -/
def shortenStoreStep (db : DB) (owner : Nat) (dest : String)
    (candidates : List String) : Option DB :=
  match freshCodeLoop db candidates with
  | none => none
  | some (code, _) =>
    some (insertLink db
      { id := nextLinkId db, original_long_url_str := dest,
        the_short_code_str := code, creator_user_id := owner })

/-- A whole sequence of creation requests, each a triple of owner,
destination and candidate draws, applied left to right; a request whose
draws are exhausted leaves the store unchanged. -/
def runShortens (db : DB) : List (Nat × String × List String) → DB
  | [] => db
  | (o, d, cs) :: rest =>
    match shortenStoreStep db o d cs with
    | none => runShortens db rest
    | some db2 => runShortens db2 rest

/-- The codes currently assigned, in insertion order. -/
def storeCodes (db : DB) : List String :=
  db.links.map (fun l => l.the_short_code_str)

end UrlShortener

namespace UrlShortener

/-! ### Concrete stores used by witnesses and counterexamples -/

/-- A store holding one link, `ab12cd34 ↦ https://example.com/a`, owned by
user 1, with no clicks. -/
def oneLinkDB : DB :=
  { links := [{ id := 1, original_long_url_str := "https://example.com/a",
                the_short_code_str := "ab12cd34", creator_user_id := 1 }],
    clicks := [] }

/-- A store holding six links coded `c0` … `c5`. -/
def sixLinkDB : DB :=
  { links := [⟨1, "https://a/0", "c0", 1⟩, ⟨2, "https://a/1", "c1", 1⟩,
              ⟨3, "https://a/2", "c2", 1⟩, ⟨4, "https://a/3", "c3", 1⟩,
              ⟨5, "https://a/4", "c4", 1⟩, ⟨6, "https://a/5", "c5", 1⟩],
    clicks := [] }

/-- A store holding one link coded `abcd0001` owned by user 2. -/
def foreignLinkDB : DB :=
  { links := [{ id := 1, original_long_url_str := "https://example.com/b",
                the_short_code_str := "abcd0001", creator_user_id := 2 }],
    clicks := [] }

/-- A store holding one link coded `qqqq8888` owned by user 3. -/
def clickClaimDB : DB :=
  { links := [{ id := 7, original_long_url_str := "https://example.com/c",
                the_short_code_str := "qqqq8888", creator_user_id := 3 }],
    clicks := [] }

/-! ### Helper lemmas -/

/-- A code looks up to nothing exactly when no stored link carries it. -/
theorem lookupLink_eq_none_iff (db : DB) (c : String) :
    lookupLink db c = none ↔ ∀ l ∈ db.links, l.the_short_code_str ≠ c := by
  simp [lookupLink, List.find?_eq_none]

/-- The code returned by the collision loop is not in the store. -/
theorem freshCodeLoop_not_in_store (db : DB) :
    ∀ cands c n, freshCodeLoop db cands = some (c, n) →
      lookupLink db c = none := by
  intro cands
  induction cands with
  | nil => intro c n h; simp [freshCodeLoop] at h
  | cons a rest ih =>
    intro c n h
    unfold freshCodeLoop at h
    cases hl : lookupLink db a with
    | none =>
      rw [hl] at h
      have hce : a = c ∧ 1 = n := by simpa using h
      rw [← hce.1]
      exact hl
    | some l =>
      rw [hl] at h
      cases hr : freshCodeLoop db rest with
      | none => rw [hr] at h; exact absurd h (by simp)
      | some p =>
        rw [hr] at h
        obtain ⟨c2, n2⟩ := p
        have hce : c2 = c ∧ n2 + 1 = n := by simpa using h
        rw [← hce.1]
        exact ih c2 n2 hr

/-- The `firstInvalidKwarg` outcome at the `ShortURL` constructor call of
line 444. -/
theorem shortURL_ctor_invalid :
    firstInvalidKwarg shortURLAttrNames shortURLCtorKwargs
      = some "original_full_url_str" := by decide

/-- The `firstInvalidKwarg` outcome at the `Click` constructor call of
line 459. -/
theorem click_ctor_invalid :
    firstInvalidKwarg clickAttrNames clickCtorKwargs
      = some "short_link_id" := by decide

end UrlShortener

namespace UrlShortener

/-! ### Claim theorems -/

/-- C2: the claimed round trip of creation and resolution cannot occur on
the code.  With a signed-in owner, a valid destination and a fresh candidate
code, `create_a_new_shortened_link` raises `TypeError` at the `ShortURL`
constructor of line 444 (keyword `original_full_url_str`, while the column
declared at line 40 is `original_long_url_str`) and stores nothing; and on a
store that does hold the link, the hit path of
`redirect_to_the_original_url` raises `TypeError` at the `Click` constructor
of line 459 (keyword `short_link_id`, while the column declared at line 58
is `clicked_url_id`) instead of redirecting to the destination. -/
theorem C2_roundtrip_impossible :
    create_a_new_shortened_link emptyDB (some 1) "https://example.com/a"
        ["ab12cd34"]
      = (.typeError "original_full_url_str", emptyDB)
    ∧ redirect_to_the_original_url oneLinkDB "ab12cd34" "1.2.3.4"
      = (.typeError "short_link_id", oneLinkDB) := by decide

/-- An input destination that strips to the empty string, or whose stripped
form fails the scheme check, makes the handler flash and return the store
unchanged. -/
theorem create_invalid_flash (db : DB) (uid : Nat) (s : String)
    (cands : List String)
    (h : pyStrip s = "" ∨ urlIsValidForm (pyStrip s) = false) :
    ((create_a_new_shortened_link db (some uid) s cands).1 = .emptyUrlFlash
      ∨ (create_a_new_shortened_link db (some uid) s cands).1 = .schemeFlash)
    ∧ (create_a_new_shortened_link db (some uid) s cands).2 = db := by
  rcases h with h | h
  · simp [create_a_new_shortened_link, h]
  · by_cases he : pyStrip s = ""
    · simp [create_a_new_shortened_link, he]
    · simp [create_a_new_shortened_link, he, h]

/-- C4: an input destination that strips to the empty string, or whose
stripped form does not start with `http://` or `https://`, is rejected with
the corresponding flash before anything reaches the store, and the store is
returned unchanged. -/
theorem C4_invalid_destination_rejected (db : DB) (uid : Nat) (s : String)
    (cands : List String)
    (h : pyStrip s = "" ∨ urlIsValidForm (pyStrip s) = false) :
    ((create_a_new_shortened_link db (some uid) s cands).1 = .emptyUrlFlash
      ∨ (create_a_new_shortened_link db (some uid) s cands).1 = .schemeFlash)
    ∧ (create_a_new_shortened_link db (some uid) s cands).2 = db :=
  create_invalid_flash db uid s cands h

/-- Witness for C4 at the spec scenario input `not-a-url`. -/
theorem C4_invalid_destination_rejected_witness :
    (pyStrip "not-a-url" = ""
      ∨ urlIsValidForm (pyStrip "not-a-url") = false)
    ∧ (((create_a_new_shortened_link emptyDB (some 1) "not-a-url"
            ["ab12cd34"]).1 = .emptyUrlFlash
        ∨ (create_a_new_shortened_link emptyDB (some 1) "not-a-url"
            ["ab12cd34"]).1 = .schemeFlash)
       ∧ (create_a_new_shortened_link emptyDB (some 1) "not-a-url"
            ["ab12cd34"]).2 = emptyDB) :=
  ⟨by decide,
   C4_invalid_destination_rejected emptyDB 1 "not-a-url" ["ab12cd34"]
     (by decide)⟩

/-- C5: resolving a code with no mapping flashes not-found, leaves the store
untouched, and the click count of that code is zero. -/
theorem C5_resolve_miss_silent (db : DB) (c addr : String)
    (h : lookupLink db c = none) :
    redirect_to_the_original_url db c addr = (.notFoundFlash, db)
    ∧ countFor db c = 0 := by
  constructor
  · unfold redirect_to_the_original_url
    rw [h]
  · unfold countFor
    rw [h]

/-- Witness for C5 at the spec scenario input `doesnotexist`. -/
theorem C5_resolve_miss_silent_witness :
    lookupLink oneLinkDB "doesnotexist" = none
    ∧ (redirect_to_the_original_url oneLinkDB "doesnotexist" "1.2.3.4"
        = (.notFoundFlash, oneLinkDB)
       ∧ countFor oneLinkDB "doesnotexist" = 0) :=
  ⟨by decide, C5_resolve_miss_silent oneLinkDB "doesnotexist" "1.2.3.4"
     (by decide)⟩

/-- C6 counterexample: on a store holding the link `ab12cd34`, the click
recording step of the hit path fails (TypeError at line 459) and the
resolution does not succeed - no redirect to the stored destination is
issued, contradicting the claim that a click-recording failure never fails
the redirect. -/
theorem C6_click_failure_fails_redirect :
    (redirect_to_the_original_url oneLinkDB "ab12cd34" "9.9.9.9").1
      = .typeError "short_link_id"
    ∧ (redirect_to_the_original_url oneLinkDB "ab12cd34" "9.9.9.9").1
      ≠ .redirected "https://example.com/a" := by decide

/-- C6 amended: click recording is inline and unguarded on the hit path, so
a failure of the recording step propagates and the redirect does not happen;
with the `Click` constructor keywords of line 459 every hit raises
`TypeError` at the recording step, before any click or redirect. -/
theorem C6_hit_path_raises (db : DB) (c addr : String) (l : ShortURLRow)
    (h : lookupLink db c = some l) :
    redirect_to_the_original_url db c addr
      = (.typeError "short_link_id", db) := by
  unfold redirect_to_the_original_url
  rw [h, click_ctor_invalid]

/-- Witness for the amended C6. -/
theorem C6_hit_path_raises_witness :
    lookupLink oneLinkDB "ab12cd34"
      = some { id := 1, original_long_url_str := "https://example.com/a",
               the_short_code_str := "ab12cd34", creator_user_id := 1 }
    ∧ redirect_to_the_original_url oneLinkDB "ab12cd34" "1.2.3.4"
      = (.typeError "short_link_id", oneLinkDB) :=
  ⟨by decide,
   C6_hit_path_raises oneLinkDB "ab12cd34" "1.2.3.4"
     { id := 1, original_long_url_str := "https://example.com/a",
       the_short_code_str := "ab12cd34", creator_user_id := 1 }
     (by decide)⟩

/-- C7 counterexample: on a store whose only link `abcd0001` is owned by
user 2, caller 1 gets exactly the same outcome for that existing foreign
link as for the nonexistent code `nosuchcode` - a single shared
flash-and-redirect - so no Forbidden outcome distinct from NotFound is
surfaced anywhere. -/
theorem C7_forbidden_equals_notfound :
    lookupLink foreignLinkDB "abcd0001"
      = some { id := 1, original_long_url_str := "https://example.com/b",
               the_short_code_str := "abcd0001", creator_user_id := 2 }
    ∧ lookupLink foreignLinkDB "nosuchcode" = none
    ∧ show_link_click_stats foreignLinkDB (some 1) "abcd0001"
        = .notFoundOrForbiddenFlash
    ∧ show_link_click_stats foreignLinkDB (some 1) "nosuchcode"
        = .notFoundOrForbiddenFlash := by decide

/-- C8: clicks are never counted because none is ever recorded.  On a store
holding the link `qqqq8888` with no clicks, a resolve raises `TypeError` at
line 459, the store is unchanged, and the click count stays 0 - it cannot
equal the number of attempted resolutions of the code. -/
theorem C8_no_click_recorded :
    redirect_to_the_original_url clickClaimDB "qqqq8888" "1.2.3.4"
      = (.typeError "short_link_id", clickClaimDB)
    ∧ countFor clickClaimDB "qqqq8888" = 0
    ∧ countFor (redirect_to_the_original_url clickClaimDB "qqqq8888"
        "1.2.3.4").2 "qqqq8888" = 0 := by decide

/-- C10 counterexample: the bare string `https://` passes both validation
checks (neither flash is produced) and creation proceeds past validation,
but nothing is stored: the handler raises `TypeError` at line 444 and the
link table stays empty, so the accepted value is not stored as-is. -/
theorem C10_bare_scheme_not_stored :
    (create_a_new_shortened_link emptyDB (some 1) "https://" ["zzzz1111"]).1
      = .typeError "original_full_url_str"
    ∧ (create_a_new_shortened_link emptyDB (some 1) "https://"
        ["zzzz1111"]).1 ≠ .emptyUrlFlash
    ∧ (create_a_new_shortened_link emptyDB (some 1) "https://"
        ["zzzz1111"]).1 ≠ .schemeFlash
    ∧ (create_a_new_shortened_link emptyDB (some 1) "https://"
        ["zzzz1111"]).2.links = [] := by decide

end UrlShortener

namespace UrlShortener

/-- The number of stored links carrying code `c`. -/
def codeCount (db : DB) (c : String) : Nat :=
  (db.links.filter (fun l => l.the_short_code_str == c)).length

/-- Inserting a row whose code is absent from the store keeps every code
count at most one. -/
theorem codeCount_insert_fresh (db : DB) (r : ShortURLRow) (c : String)
    (hfresh : lookupLink db r.the_short_code_str = none)
    (hle : codeCount db c ≤ 1) :
    codeCount (insertLink db r) c ≤ 1 := by
  unfold codeCount insertLink at *
  simp only [List.filter_append, List.length_append]
  by_cases hc : r.the_short_code_str = c
  · have hnil : db.links.filter (fun l => l.the_short_code_str == c) = [] := by
      rw [List.filter_eq_nil_iff]
      intro l hl
      have hne := (lookupLink_eq_none_iff db r.the_short_code_str).mp hfresh l hl
      simp [← hc, hne]
    rw [hnil]
    simp [hc]
  · have hone : List.filter (fun l => l.the_short_code_str == c) [r] = [] := by
      simp [hc]
    rw [hone]
    simpa using hle

/-- Every sequence of storage-level creations keeps every code count at most
one, starting from any store where it is. -/
theorem runShortens_codeCount (reqs : List (Nat × String × List String)) :
    ∀ db : DB, (∀ c, codeCount db c ≤ 1) →
      ∀ c, codeCount (runShortens db reqs) c ≤ 1 := by
  induction reqs with
  | nil => intro db h c; exact h c
  | cons r rest ih =>
    intro db h c
    obtain ⟨o, d, cs⟩ := r
    unfold runShortens
    cases hs : shortenStoreStep db o d cs with
    | none => exact ih db h c
    | some db2 =>
      refine ih db2 ?_ c
      intro c2
      unfold shortenStoreStep at hs
      cases hf : freshCodeLoop db cs with
      | none => rw [hf] at hs; cases hs
      | some p =>
        rw [hf] at hs
        obtain ⟨code, n⟩ := p
        have hdb2 : insertLink db
            { id := nextLinkId db, original_long_url_str := d,
              the_short_code_str := code, creator_user_id := o } = db2 := by
          simpa using hs
        rw [← hdb2]
        refine codeCount_insert_fresh db _ c2 ?_ (h c2)
        simpa using freshCodeLoop_not_in_store db cs code n hf

/-- C1: global uniqueness of the code namespace.  Over every sequence of
creation requests applied to the initially empty store - each request with
its own owner, destination and stream of candidate draws, including streams
that redraw codes already assigned - the resulting store never holds two
links with the same code: the loop of lines 440-441 only ever hands a code
that is absent from the store to the insert of lines 444-446, which the
`unique=True` constraint of line 41 also guards. -/
theorem C1_code_uniqueness (reqs : List (Nat × String × List String))
    (c : String) :
    codeCount (runShortens emptyDB reqs) c ≤ 1 :=
  runShortens_codeCount reqs emptyDB
    (fun c2 => by simp [codeCount, emptyDB]) c

/-- C3 counterexample: on a store already holding `c0` … `c5`, a creation
whose draws collide six times runs the loop through seven draws - past any
five-attempt ceiling - and still hands out the seventh draw `c6`; the
handler then proceeds toward creation rather than failing with any
namespace-exhaustion outcome (no such outcome exists in the code). -/
theorem C3_retry_exceeds_ceiling :
    freshCodeLoop sixLinkDB ["c0", "c1", "c2", "c3", "c4", "c5", "c6"]
      = some ("c6", 7)
    ∧ 5 < 7
    ∧ (create_a_new_shortened_link sixLinkDB (some 1)
        "https://example.com/x" ["c0", "c1", "c2", "c3", "c4", "c5", "c6"]).1
      = .typeError "original_full_url_str" := by decide

/-- C3 amended: the collision loop retries without any attempt ceiling and
without a namespace-exhaustion failure; it terminates exactly when the draw
stream yields a code absent from the store, however many draws that takes,
and the code it returns is always fresh. -/
theorem C3_retry_unbounded (db : DB) :
    ∀ (cands : List String) (c : String), c ∈ cands →
      lookupLink db c = none →
      ∃ c2 n, freshCodeLoop db cands = some (c2, n)
        ∧ lookupLink db c2 = none := by
  intro cands
  induction cands with
  | nil => intro c h1 _; cases h1
  | cons a rest ih =>
    intro c h1 h2
    unfold freshCodeLoop
    cases hl : lookupLink db a with
    | none => exact ⟨a, 1, rfl, hl⟩
    | some l =>
      have ha : c ≠ a := by
        rintro rfl
        rw [hl] at h2
        cases h2
      have hmem : c ∈ rest := by
        cases h1 with
        | head => exact absurd rfl ha
        | tail _ h => exact h
      obtain ⟨c2, n, hc, hf⟩ := ih c hmem h2
      rw [hc]
      exact ⟨c2, n + 1, rfl, hf⟩

/-- Witness for the amended C3. -/
theorem C3_retry_unbounded_witness :
    ∃ c2 n, freshCodeLoop sixLinkDB ["c0", "c6"] = some (c2, n)
      ∧ lookupLink sixLinkDB c2 = none :=
  C3_retry_unbounded sixLinkDB ["c0", "c6"] "c6" (by decide) (by decide)

end UrlShortener

namespace UrlShortener

/-- C7 amended: when a link carrying the code exists but every such link is
owned by a different user than the caller, the analytics handler answers
with the same single `notFoundOrForbiddenFlash` outcome it gives for a code
with no link at all (lines 476-480 run one combined query and one combined
flash); ownership is enforced, but the two cases are not distinguishable. -/
theorem C7_foreign_link_conflated (db : DB) (uid : Nat) (c : String)
    (_hexists : ∃ l ∈ db.links, l.the_short_code_str = c)
    (hforeign : ∀ l ∈ db.links, l.the_short_code_str = c →
      l.creator_user_id ≠ uid) :
    show_link_click_stats db (some uid) c = .notFoundOrForbiddenFlash
    ∧ ∀ c2, lookupLink db c2 = none →
        show_link_click_stats db (some uid) c2
          = .notFoundOrForbiddenFlash := by
  constructor
  · have hnone : db.links.find? (fun l => l.the_short_code_str == c
        && l.creator_user_id == uid) = none := by
      rw [List.find?_eq_none]
      intro l hl
      simp only [Bool.and_eq_true, beq_iff_eq, not_and]
      exact fun hc => hforeign l hl hc
    simp [show_link_click_stats, hnone]
  · intro c2 h2
    have hnone : db.links.find? (fun l => l.the_short_code_str == c2
        && l.creator_user_id == uid) = none := by
      rw [List.find?_eq_none]
      intro l hl
      have hne := (lookupLink_eq_none_iff db c2).mp h2 l hl
      simp [hne]
    simp [show_link_click_stats, hnone]

/-- Witness for the amended C7: the store holds `abcd0001` owned by user 2,
and caller 1 receives the shared flash for it and for a missing code. -/
theorem C7_foreign_link_conflated_witness :
    (∃ l ∈ foreignLinkDB.links, l.the_short_code_str = "abcd0001")
    ∧ (show_link_click_stats foreignLinkDB (some 1) "abcd0001"
        = .notFoundOrForbiddenFlash
       ∧ ∀ c2, lookupLink foreignLinkDB c2 = none →
          show_link_click_stats foreignLinkDB (some 1) c2
            = .notFoundOrForbiddenFlash) :=
  ⟨⟨{ id := 1, original_long_url_str := "https://example.com/b",
      the_short_code_str := "abcd0001", creator_user_id := 2 },
    by decide, rfl⟩,
   C7_foreign_link_conflated foreignLinkDB 1 "abcd0001"
     ⟨{ id := 1, original_long_url_str := "https://example.com/b",
        the_short_code_str := "abcd0001", creator_user_id := 2 },
      by decide, rfl⟩
     (by decide)⟩

/-- Every branch of the creation handler either returns the link table
unchanged or appends to its end. -/
theorem create_links_extend (db : DB) (o : Option Nat) (s : String)
    (cs : List String) :
    ∃ t, (create_a_new_shortened_link db o s cs).2.links = db.links ++ t := by
  unfold create_a_new_shortened_link
  cases o with
  | none => exact ⟨[], by simp⟩
  | some uid =>
    by_cases h1 : pyStrip s = ""
    · exact ⟨[], by simp [h1]⟩
    · by_cases h2 : urlIsValidForm (pyStrip s)
      · cases hf : freshCodeLoop db cs with
        | none => exact ⟨[], by simp [h1, h2, hf]⟩
        | some p =>
          obtain ⟨code, n⟩ := p
          cases hk : firstInvalidKwarg shortURLAttrNames shortURLCtorKwargs with
          | none =>
            exact ⟨[{ id := nextLinkId db,
                      original_long_url_str := pyStrip s,
                      the_short_code_str := code,
                      creator_user_id := uid }], by simp [h1, h2, hf, hk]⟩
          | some kw => exact ⟨[], by simp [h1, h2, hf, hk]⟩
      · exact ⟨[], by simp [h1, h2]⟩

/-- Every branch of the redirect handler leaves the link table exactly as it
was and at most appends to the click table. -/
theorem resolve_frame (db : DB) (c addr : String) :
    (redirect_to_the_original_url db c addr).2.links = db.links
    ∧ ∃ t, (redirect_to_the_original_url db c addr).2.clicks
        = db.clicks ++ t := by
  unfold redirect_to_the_original_url
  cases hl : lookupLink db c with
  | none => exact ⟨rfl, [], by simp⟩
  | some l =>
    rw [click_ctor_invalid]
    exact ⟨rfl, [], by simp⟩

/-- C9: immutability of stored links.  No handler rewrites or removes a
stored link: the creation handler at most appends a new row to the end of
the link table; the redirect handler returns the link table unchanged and at
most appends to the click table; the dashboard handler returns the store
unchanged; the storage-level creation step at most appends a row; and the
analytics handler performs no write at all (its embedding returns only an
outcome).  Every previously stored row therefore keeps its code, destination
and owner. -/
theorem C9_links_immutable (db : DB) (o : Option Nat) (s : String)
    (cs : List String) (c addr : String) (si uf : Bool)
    (owner2 : Nat) (dest2 : String) (cs2 : List String) :
    (∃ t, (create_a_new_shortened_link db o s cs).2.links = db.links ++ t)
    ∧ (redirect_to_the_original_url db c addr).2.links = db.links
    ∧ (∃ t, (redirect_to_the_original_url db c addr).2.clicks
        = db.clicks ++ t)
    ∧ (user_dashboard_view db si uf).2 = db
    ∧ (∃ t, ((shortenStoreStep db owner2 dest2 cs2).getD db).links
        = db.links ++ t) := by
  refine ⟨create_links_extend db o s cs, (resolve_frame db c addr).1,
    (resolve_frame db c addr).2, ?_, ?_⟩
  · cases si <;> cases uf <;> rfl
  · unfold shortenStoreStep
    cases hf : freshCodeLoop db cs2 with
    | none => exact ⟨[], by simp⟩
    | some p =>
      obtain ⟨code, n⟩ := p
      exact ⟨[{ id := nextLinkId db, original_long_url_str := dest2,
                the_short_code_str := code, creator_user_id := owner2 }],
             by simp [insertLink]⟩

end UrlShortener

namespace UrlShortener

/-- When the stripped input passes the scheme check, the handler passes both
validation branches: its outcome is the line-444 `TypeError` (a fresh draw
was found) or the model artifact of an exhausted draw supply - never a
validation flash and never a stored row. -/
theorem create_valid_not_flash (db : DB) (uid : Nat) (s : String)
    (cands : List String) (hv : urlIsValidForm (pyStrip s) = true) :
    (create_a_new_shortened_link db (some uid) s cands).1
      = .typeError "original_full_url_str"
    ∨ (create_a_new_shortened_link db (some uid) s cands).1
      = .stillDrawing := by
  have he : pyStrip s ≠ "" := by
    intro h0
    rw [h0] at hv
    exact absurd hv (by decide)
  cases hf : freshCodeLoop db cands with
  | none => right; simp [create_a_new_shortened_link, he, hv, hf]
  | some p =>
    obtain ⟨code, n⟩ := p
    left
    simp [create_a_new_shortened_link, he, hv, hf, shortURL_ctor_invalid]

/-- C10 amended: destination validation is a scheme-text check only - the
submitted string is stripped of surrounding whitespace, and it passes
validation (neither the empty-field flash nor the scheme flash) exactly when
the stripped string starts with `http://` or `https://`, with no further URL
structure checked; the accepted value then reaches the creation step
unchanged, though the line-444 `TypeError` keeps it from being persisted. -/
theorem C10_validation_scheme_check_only (db : DB) (uid : Nat) (s : String)
    (cands : List String) :
    ((create_a_new_shortened_link db (some uid) s cands).1 ≠ .emptyUrlFlash
      ∧ (create_a_new_shortened_link db (some uid) s cands).1 ≠ .schemeFlash)
    ↔ (pyStartsWith (pyStrip s) "http://" = true
        ∨ pyStartsWith (pyStrip s) "https://" = true) := by
  have hchar : (pyStartsWith (pyStrip s) "http://" = true
      ∨ pyStartsWith (pyStrip s) "https://" = true)
      ↔ urlIsValidForm (pyStrip s) = true := by
    simp [urlIsValidForm]
  rw [hchar]
  constructor
  · intro h
    cases hb : urlIsValidForm (pyStrip s) with
    | true => rfl
    | false =>
      exfalso
      rcases create_invalid_flash db uid s cands (Or.inr hb) with ⟨h1 | h1, _⟩
      · exact h.1 h1
      · exact h.2 h1
  · intro hv
    rcases create_valid_not_flash db uid s cands hv with h1 | h1 <;>
      rw [h1] <;> exact ⟨by simp, by simp⟩

end UrlShortener
